import Mathlib

/-!
Shallow embedding of the task scheduling and execution engine of the
data-auto-export repository: the execution-log state machine
(`src/core/models/execution_log.py`), the task executor
(`src/core/services/task_executor.py`), the task scheduler
(`src/core/services/task_scheduler.py`) and the connection registry
(`src/core/database/connection.py`).

Times are modelled as integers (seconds); Python `datetime` values that the
code only subtracts and compares are represented by these integers.
Python exceptions are modelled by an explicit error type `PyErr`; a Python
function that can raise is embedded as a Lean function into `Except PyErr`.
Pandas DataFrames are modelled by their column list and row list, which is
all the core reads from them (`len(df)`, `df.columns`).
-/

namespace DataAutoExport

/-- Python exception values, tagged by the kind the source raises. -/
inductive PyErr where
  | valueError (msg : String)
  | timeoutError (msg : String)
  | connectionError (msg : String)
  | fileNotFound (msg : String)
  | attributeError (msg : String)
  | importError (msg : String)
  | typeError (msg : String)
  | otherError (msg : String)
  deriving Repr, DecidableEq

/-- Message carried by an exception (Python `str(e)`). -/
def PyErr.message : PyErr → String
  | .valueError m => m
  | .timeoutError m => m
  | .connectionError m => m
  | .fileNotFound m => m
  | .attributeError m => m
  | .importError m => m
  | .typeError m => m
  | .otherError m => m

/-- Truthiness of an optional string, as Python `if not s:` sees it:
`None` and the empty string are falsy. -/
def strTruthy : Option String → Bool
  | none => false
  | some s => !(s == "")

/-- Model of a pandas DataFrame: ordered columns and row-major data.
`len(df)` is the number of rows. -/
structure DataFrame where
  cols : List String
  rows : List (List String)
  deriving Repr, DecidableEq

/-- `ExecutionStatus` enum from `src/core/models/execution_log.py`. -/
inductive ExecutionStatus where
  | running
  | success
  | failed
  | cancelled
  deriving Repr, DecidableEq

/-- `TaskStatus` enum from `src/core/models/task.py`. -/
inductive TaskStatus where
  | active
  | inactive
  | deleted
  deriving Repr, DecidableEq

/-- `ExecutionType` enum from `src/core/models/task.py`. -/
inductive ExecutionType where
  | sql
  | script
  deriving Repr, DecidableEq

/-- The fields of `ExportTask` (`src/core/models/task.py`) that the core
reads during scheduling and execution. -/
structure ExportTask where
  id : Nat
  name : String
  dataSourceName : String
  execution_type : ExecutionType
  sql_content : Option String
  script_path : Option String
  script_function : Option String
  cron_expression : Option String
  timezone : Option String
  status : TaskStatus
  deriving Repr, DecidableEq

/-- `ExportTask.is_active`. -/
def ExportTask.is_active (t : ExportTask) : Bool :=
  t.status == TaskStatus.active

/-- The `ExecutionLog` record (`src/core/models/execution_log.py`).
`start_time` is never null: the constructor sets it to `datetime.now()`
when absent, and a `datetime` is always truthy in Python. -/
structure ExecutionLog where
  task_id : Nat
  execution_id : String
  triggered_by : String
  status : ExecutionStatus
  start_time : Int
  end_time : Option Int
  duration : Option Int
  rows_affected : Option Nat
  output_file_path : Option String
  file_size : Option Nat
  error_message : Option String
  error_traceback : Option String
  export_results : Option String
  dingtalk_sent : Bool
  email_sent : Bool
  deriving Repr, DecidableEq

/-- `ExecutionLog.mark_success`: sets status `success`, end time
(`datetime.now()` when the argument is absent), recomputes duration as
end − start, and records the optional result fields.  `output_file_path`
is stored only when truthy (`if output_file_path:`), the numeric fields
whenever they are not `None`. -/
def ExecutionLog.mark_success (log : ExecutionLog) (now : Int)
    (end_time : Option Int := none) (rows_affected : Option Nat := none)
    (output_file_path : Option String := none) (file_size : Option Nat := none) :
    ExecutionLog :=
  let e := end_time.getD now
  { log with
    status := ExecutionStatus.success
    end_time := some e
    duration := some (e - log.start_time)
    rows_affected := match rows_affected with
      | some r => some r
      | none => log.rows_affected
    output_file_path := if strTruthy output_file_path then output_file_path
      else log.output_file_path
    file_size := match file_size with
      | some s => some s
      | none => log.file_size }

/-- `ExecutionLog.mark_failed`: sets status `failed`, end time, recomputes
duration as end − start, and stores the error message and traceback. -/
def ExecutionLog.mark_failed (log : ExecutionLog) (now : Int)
    (error_message : String) (error_traceback : Option String := none)
    (end_time : Option Int := none) : ExecutionLog :=
  let e := end_time.getD now
  { log with
    status := ExecutionStatus.failed
    end_time := some e
    duration := some (e - log.start_time)
    error_message := some error_message
    error_traceback := error_traceback }

/-- `ExecutionLog.mark_cancelled`: sets status `cancelled`, end time, and
recomputes duration as end − start. -/
def ExecutionLog.mark_cancelled (log : ExecutionLog) (now : Int)
    (end_time : Option Int := none) : ExecutionLog :=
  let e := end_time.getD now
  { log with
    status := ExecutionStatus.cancelled
    end_time := some e
    duration := some (e - log.start_time) }

/-- Result dictionary returned by the Export Sink
(`export_manager.export_data` / `export_multiple_datasets`), as read by
`TaskExecutor.execute_task`: the keys `file_path`, `file_size`,
`dingtalk_sent`, `email_sent`, plus `str(export_results)`. -/
structure ExportResults where
  file_path : Option String
  file_size : Nat
  dingtalk_sent : Bool
  email_sent : Bool
  asStr : String
  deriving Repr

/-- Dynamic Python values a script function may return; the executor only
distinguishes DataFrames, dicts, and everything else. -/
inductive PyObj where
  | dataFrame (df : DataFrame)
  | pyDict (entries : List (String × PyObj))
  | pyStr (s : String)
  | pyNone
  | pyInt (n : Int)

/-- `isinstance(·, pd.DataFrame)`. -/
def PyObj.isDataFrame : PyObj → Bool
  | .dataFrame _ => true
  | _ => false

/-- The result-validation check of `_execute_script_task`: a DataFrame,
or a dict whose values are all DataFrames. -/
def PyObj.isTabular : PyObj → Bool
  | .dataFrame _ => true
  | .pyDict entries => entries.all fun e => e.2.isDataFrame
  | _ => false

/-- The DataFrame values of a dict whose values are all DataFrames. -/
def dictFrames (entries : List (String × PyObj)) : List (String × DataFrame) :=
  entries.filterMap fun e =>
    match e.2 with
    | .dataFrame d => some (e.1, d)
    | _ => none

/-- The validated result of the data-producing step: a single DataFrame or
a dict of named DataFrames. -/
inductive DataResult where
  | single (df : DataFrame)
  | multi (entries : List (String × DataFrame))

/-- The environment a single `execute_task` call runs in: the identifiers
and clock readings it draws, the connection registry contents, and the
outcomes of every external call (query, script load and run, export sink,
failure notification).  Each outcome is an `Except` because the
corresponding Python call may raise. -/
structure ExecEnv where
  executionId : String
  startTime : Int
  finishTime : Int
  registeredSources : List String
  queryResult : Except PyErr DataFrame
  sqlDuration : Int
  scriptLoad : Except PyErr Unit
  scriptRet : Except PyErr PyObj
  scriptDuration : Int
  exportSingle : Except PyErr ExportResults
  exportMulti : Except PyErr ExportResults
  notify : Except PyErr Unit
  formatExc : PyErr → String

/-- Error message raised in `_execute_script_task` when the script return
value violates the contract. -/
def scriptContractMsg : String :=
  "脚本函数必须返回 pandas.DataFrame 或 Dict[str, pandas.DataFrame]"

/-- `TaskExecutor._execute_sql_task`.  Raises when `sql_content` is falsy
or the query fails; on success stores the SQL step duration into the
log's `duration` field and returns the DataFrame.  Errors carry the log
state at the raise point (Python mutates the log object in place). -/
def executeSqlTask (env : ExecEnv) (task : ExportTask) (log : ExecutionLog) :
    Except (PyErr × ExecutionLog) (DataFrame × ExecutionLog) :=
  if !(strTruthy task.sql_content) then
    .error (.valueError "SQL内容不能为空", log)
  else
    match env.queryResult with
    | .error e => .error (e, log)
    | .ok df => .ok (df, { log with duration := some env.sqlDuration })

/-- `TaskExecutor._execute_script_task`.  Raises when path or function
name is falsy, when loading or running the script raises, or when the
returned value is neither a DataFrame nor a dict of DataFrames; on
success stores the script step duration into the log. -/
def executeScriptTask (env : ExecEnv) (task : ExportTask) (log : ExecutionLog) :
    Except (PyErr × ExecutionLog) (DataResult × ExecutionLog) :=
  if !(strTruthy task.script_path) || !(strTruthy task.script_function) then
    .error (.valueError "脚本路径和函数名不能为空", log)
  else
    match env.scriptLoad with
    | .error e => .error (e, log)
    | .ok _ =>
      match env.scriptRet with
      | .error e => .error (e, log)
      | .ok r =>
        let log' := { log with duration := some env.scriptDuration }
        match r with
        | .dataFrame df => .ok (.single df, log')
        | .pyDict entries =>
          if entries.all (fun e => e.2.isDataFrame) then
            .ok (.multi (dictFrames entries), log')
          else
            .error (.valueError scriptContractMsg, log')
        | _ => .error (.valueError scriptContractMsg, log')

/-- `TaskExecutor._export_data`: dispatches to the Export Sink by result
shape. -/
def exportData (env : ExecEnv) (data : DataResult) : Except PyErr ExportResults :=
  match data with
  | .single _ => env.exportSingle
  | .multi _ => env.exportMulti

/-- The fresh `running` log `execute_task` constructs before its try
block. -/
def initLog (env : ExecEnv) (task : ExportTask) (triggered_by : String) :
    ExecutionLog :=
  { task_id := task.id
    execution_id := env.executionId
    triggered_by := triggered_by
    status := ExecutionStatus.running
    start_time := env.startTime
    end_time := none
    duration := none
    rows_affected := none
    output_file_path := none
    file_size := none
    error_message := none
    error_traceback := none
    export_results := none
    dingtalk_sent := false
    email_sent := false }

/-- The dispatch on `task.execution_type` inside `execute_task`'s try
block (the `else` arm raising on an unknown type is unreachable for the
two-constructor enum). -/
def dispatchTask (env : ExecEnv) (task : ExportTask) (log0 : ExecutionLog) :
    Except (PyErr × ExecutionLog) (DataResult × ExecutionLog) :=
  match task.execution_type with
  | .sql =>
    match executeSqlTask env task log0 with
    | .error el => .error el
    | .ok (df, log1) => .ok (.single df, log1)
  | .script => executeScriptTask env task log0

/-- `len(result_data)` when the result is a single DataFrame, else `0` —
the `rows_affected` value `execute_task` passes to `mark_success`. -/
def rowsAffectedOf : DataResult → Nat
  | .single df => df.rows.length
  | .multi _ => 0

/-- Export and success marking: hand the data to the Export Sink, then
`mark_success` with rows affected, artifact path and size, and record
the export-result fields. -/
def afterDispatch (env : ExecEnv)
    (d : Except (PyErr × ExecutionLog) (DataResult × ExecutionLog)) :
    Except (PyErr × ExecutionLog) ExecutionLog :=
  match d with
  | .error el => .error el
  | .ok (result, log1) =>
    match exportData env result with
    | .error e => .error (e, log1)
    | .ok er =>
      let log2 := log1.mark_success env.finishTime none (some (rowsAffectedOf result))
        er.file_path (some er.file_size)
      .ok { log2 with
        export_results := some er.asStr
        dingtalk_sent := er.dingtalk_sent
        email_sent := er.email_sent }

/-- The body of `execute_task`'s try block: eligibility checks, dispatch
by execution type, export, then `mark_success` and the export-result
fields.  An error carries the log state at the raise point. -/
def executeTaskBody (env : ExecEnv) (task : ExportTask) (log0 : ExecutionLog) :
    Except (PyErr × ExecutionLog) ExecutionLog :=
  if !task.is_active then
    .error (.valueError ("任务 " ++ task.name ++ " 未启用"), log0)
  else if !(env.registeredSources.contains task.dataSourceName) then
    .error (.valueError ("数据源 " ++ task.dataSourceName ++ " 不存在"), log0)
  else
    afterDispatch env (dispatchTask env task log0)

/-- `TaskExecutor.execute_task`.  Builds the running log, runs the try
block, and on any exception marks the log failed with message and
traceback; the best-effort failure notification (`env.notify`) sits in
its own try/except and never alters the log, so it does not appear in
the result.  Total: every call returns an `ExecutionLog`. -/
def execute_task (env : ExecEnv) (task : ExportTask)
    (triggered_by : String) : ExecutionLog :=
  match executeTaskBody env task (initLog env task triggered_by) with
  | .ok log => log
  | .error (e, logE) =>
    logE.mark_failed env.finishTime e.message (some (env.formatExc e))

/-- Does `needle` occur at the head of `hay`?  (Python
`hay.startswith(needle)` at character level.) -/
def startsWithL : List Char → List Char → Bool
  | [], _ => true
  | _ :: _, [] => false
  | a :: as, b :: bs => a == b && startsWithL as bs

/-- Python substring test `needle in hay` at character level. -/
def containsSub (needle : List Char) : List Char → Bool
  | [] => startsWithL needle []
  | b :: bs => startsWithL needle (b :: bs) || containsSub needle bs

/-- Python `s.strip()` for ASCII whitespace. -/
def pyStrip (s : String) : String :=
  String.mk (((s.data.dropWhile Char.isWhitespace).reverse.dropWhile
    Char.isWhitespace).reverse)

/-- ASCII lower-casing of one character, as Python `str.lower` acts on
the ASCII SQL keywords at issue. -/
def asciiLower (c : Char) : Char :=
  if 65 ≤ c.toNat && c.toNat ≤ 90 then Char.ofNat (c.toNat + 32) else c

/-- Python `s.lower()` (ASCII). -/
def pyLower (s : String) : String :=
  String.mk (s.data.map asciiLower)

/-! ## Task scheduler (`src/core/services/task_scheduler.py`) -/

/-- Trigger kind of a scheduled job: `CronTrigger.from_crontab` for
recurring tasks, a `date` trigger for manual one-shot fires. -/
inductive JobKind where
  | cron
  | oneshot
  deriving Repr, DecidableEq

/-- The configuration `add_job` receives for one job, as far as the core
sets it: `coalesce` and `misfire_grace_time` are passed only on the cron
path, so they are `none` (engine default) for one-shot jobs. -/
structure JobConfig where
  id : String
  name : String
  kind : JobKind
  max_instances : Nat
  coalesce : Option Bool
  misfire_grace_time : Option Nat
  deriving Repr, DecidableEq

/-- The job engine's live job set, keyed by job id. -/
structure SchedulerState where
  jobs : List JobConfig
  deriving Repr, DecidableEq

/-- `scheduler.get_job(job_id)`. -/
def SchedulerState.getJob (st : SchedulerState) (jobId : String) : Option JobConfig :=
  st.jobs.find? fun j => j.id == jobId

/-- `scheduler.remove_job(job_id)`. -/
def SchedulerState.removeJob (st : SchedulerState) (jobId : String) : SchedulerState :=
  { jobs := st.jobs.filter fun j => !(j.id == jobId) }

/-- `scheduler.add_job(...)` (callers below only add after checking or
removing a conflicting id). -/
def SchedulerState.addJob (st : SchedulerState) (j : JobConfig) : SchedulerState :=
  { jobs := j :: st.jobs }

/-- Environment of the scheduler: the croniter validity predicate used by
`_validate_cron_expression`, whether `CronTrigger.from_crontab` accepts
the expression, and the configured misfire grace time. -/
structure SchedEnv where
  cronValid : String → Bool
  crontabOk : String → Bool
  misfire : Nat

/-- The remove-if-present step of `add_task` (`if self.scheduler.get_job
(job_id): self.scheduler.remove_job(job_id)`). -/
def removeIfExists (st : SchedulerState) (jobId : String) : SchedulerState :=
  if (st.getJob jobId).isSome then st.removeJob jobId else st

/-- `TaskScheduler.add_task`: rejects inactive tasks and absent cron
expressions, then croniter-invalid expressions, all before touching the
job set; then removes any existing job for the task id and adds a cron
job with `max_instances = 1`, `coalesce = True` and the configured
misfire grace time.  A `from_crontab` failure is caught and yields
`false` (after the removal, as in the source). -/
def add_task (env : SchedEnv) (st : SchedulerState) (task : ExportTask) :
    Bool × SchedulerState :=
  if !task.is_active || !(strTruthy task.cron_expression) then
    (false, st)
  else if !(env.cronValid (task.cron_expression.getD "")) then
    (false, st)
  else if env.crontabOk (task.cron_expression.getD "") then
    (true, (removeIfExists st ("task_" ++ toString task.id)).addJob
      { id := "task_" ++ toString task.id
        name := "定时任务: " ++ task.name
        kind := JobKind.cron
        max_instances := 1
        coalesce := some true
        misfire_grace_time := some env.misfire })
  else
    (false, removeIfExists st ("task_" ++ toString task.id))

/-- `TaskScheduler.remove_task`: removes the job when present, reports
`false` (not an error) when absent. -/
def remove_task (st : SchedulerState) (task_id : Nat) : Bool × SchedulerState :=
  if (st.getJob ("task_" ++ toString task_id)).isSome then
    (true, st.removeJob ("task_" ++ toString task_id))
  else
    (false, st)

/-- `TaskScheduler.update_task`: remove-then-add. -/
def update_task (env : SchedEnv) (st : SchedulerState) (task : ExportTask) :
    Bool × SchedulerState :=
  add_task env (remove_task st task.id).2 task

/-- `TaskScheduler.execute_task_now`: adds a one-shot job whose id embeds
the submission timestamp, with `max_instances = 1`.  A conflicting id
(two submissions in the same second) makes `add_job` raise, which is
caught and reported as `false`. -/
def execute_task_now (st : SchedulerState) (task : ExportTask) (stamp : String) :
    Bool × SchedulerState :=
  if (st.getJob ("manual_" ++ toString task.id ++ "_" ++ stamp)).isSome then
    (false, st)
  else
    (true, st.addJob
      { id := "manual_" ++ toString task.id ++ "_" ++ stamp
        name := "手动执行: " ++ task.name
        kind := JobKind.oneshot
        max_instances := 1
        coalesce := none
        misfire_grace_time := none })

/-- `TaskScheduler.reschedule_all_tasks`: removes every job whose id
starts with `task_`, then re-adds the active tasks that have a cron
expression. -/
def reschedule_all_tasks (env : SchedEnv) (st : SchedulerState)
    (tasks : List ExportTask) : SchedulerState :=
  tasks.foldl
    (fun s t =>
      if t.is_active && strTruthy t.cron_expression then (add_task env s t).2 else s)
    { jobs := st.jobs.filter fun j => !(startsWithL "task_".data j.id.data) }

/-- `TaskScheduler.cleanup_completed_jobs`: removes the one-shot manual
jobs the engine reports as already fired (`next_run_time is None`,
abstracted by the `fired` predicate). -/
def cleanup_completed_jobs (st : SchedulerState) (fired : String → Bool) :
    SchedulerState :=
  { jobs := st.jobs.filter fun j =>
      !(startsWithL "manual_".data j.id.data && fired j.id) }

/-- One mutation of the scheduler's job set, as exposed by the core. -/
inductive SchedOp where
  | add (task : ExportTask)
  | remove (task_id : Nat)
  | update (task : ExportTask)
  | execNow (task : ExportTask) (stamp : String)
  | reschedAll (tasks : List ExportTask)
  | cleanup (fired : String → Bool)

/-- Apply one scheduler operation. -/
def applyOp (env : SchedEnv) (st : SchedulerState) : SchedOp → SchedulerState
  | .add t => (add_task env st t).2
  | .remove i => (remove_task st i).2
  | .update t => (update_task env st t).2
  | .execNow t s => (execute_task_now st t s).2
  | .reschedAll ts => reschedule_all_tasks env st ts
  | .cleanup f => cleanup_completed_jobs st f

/-- The empty job set a freshly started scheduler holds. -/
def schedInit : SchedulerState := { jobs := [] }

/-- Run a sequence of scheduler operations from the empty job set. -/
def runOps (env : SchedEnv) (ops : List SchedOp) : SchedulerState :=
  ops.foldl (applyOp env) schedInit

/-! ## Job engine execution gate

Model of the thread-pool job engine (APScheduler), the external
collaborator hosting the jobs: per its documented contract, a due fire of
a job starts a new execution only when fewer than `max_instances`
executions *of that job id* are currently running; otherwise the fire is
skipped.  `running` is the multiset of job ids with an execution in
flight. -/

structure EngineState where
  sched : SchedulerState
  running : List String

/-- A due fire of the given job: skipped when the job is gone or its
`max_instances` bound is reached, otherwise a new execution starts. -/
def fireJob (es : EngineState) (jobId : String) : EngineState :=
  match es.sched.getJob jobId with
  | none => es
  | some j =>
    if j.max_instances ≤ es.running.count jobId then es
    else { es with running := jobId :: es.running }

/-- One in-flight execution of the given job completes. -/
def finishJob (es : EngineState) (jobId : String) : EngineState :=
  { es with running := es.running.erase jobId }

/-- An observable event: a scheduler mutation, a due fire, or a
completion. -/
inductive EngineEvent where
  | op (o : SchedOp)
  | fire (jobId : String)
  | finish (jobId : String)

/-- Apply one engine event. -/
def applyEvent (env : SchedEnv) (es : EngineState) : EngineEvent → EngineState
  | .op o => { es with sched := applyOp env es.sched o }
  | .fire j => fireJob es j
  | .finish j => finishJob es j

/-- Initial engine state: empty job set, nothing running. -/
def engineInit : EngineState := { sched := schedInit, running := [] }

/-- Run a trace of engine events from the initial state. -/
def runEngine (env : SchedEnv) (events : List EngineEvent) : EngineState :=
  events.foldl (applyEvent env) engineInit

/-- The job ids belonging to a task id: its cron job `task_<id>` and its
timestamped manual one-shot jobs `manual_<id>_<stamp>`. -/
def jobBelongsTo (taskId : Nat) (jobId : String) : Bool :=
  jobId == "task_" ++ toString taskId ||
    startsWithL ("manual_" ++ toString taskId ++ "_").data jobId.data

/-- How many executions of the given task id are currently running. -/
def runningCountOfTask (es : EngineState) (taskId : Nat) : Nat :=
  es.running.countP (jobBelongsTo taskId)

/-! ## Connection registry (`src/core/database/connection.py`) -/

/-- A `DataSource` row (`src/core/models/data_source.py`), the fields
`get_connection_string` reads. -/
structure DataSource where
  name : String
  type : String
  host : String
  port : Nat
  database : String
  username : String
  password : String
  charset : String
  deriving Repr, DecidableEq

/-- Environment of the connection registry: password decryption (with its
plaintext fallback already applied), psycopg2 availability, whether the
`SELECT 1` probe succeeds against a given connection string, and the
driver's response (`pd.read_sql`) to a submitted query text. -/
structure ConnEnv where
  decrypt : String → String
  psycopg2Available : Bool
  connectOk : String → Bool
  readSql : String → Except PyErr DataFrame

/-- `DataSource.get_connection_string`: dialect-dispatched URL; raises
`ImportError` for postgresql without psycopg2 and `ValueError` for an
unsupported type. -/
def DataSource.get_connection_string (ds : DataSource) (env : ConnEnv) :
    Except PyErr String :=
  let pw := if ds.password == "" then "" else env.decrypt ds.password
  if ds.type == "mysql" || ds.type == "adb" then
    .ok ("mysql+pymysql://" ++ ds.username ++ ":" ++ pw ++ "@" ++ ds.host ++ ":"
      ++ toString ds.port ++ "/" ++ ds.database ++ "?charset=" ++ ds.charset)
  else if ds.type == "postgresql" then
    if env.psycopg2Available then
      .ok ("postgresql+psycopg2://" ++ ds.username ++ ":" ++ pw ++ "@" ++ ds.host
        ++ ":" ++ toString ds.port ++ "/" ++ ds.database)
    else
      .error (.importError "PostgreSQL支持需要安装psycopg2")
  else
    .error (.valueError ("不支持的数据源类型: " ++ ds.type))

/-- A pooled SQLAlchemy engine as `create_engine` configures it. -/
structure Engine where
  connection_string : String
  pool_size : Nat
  max_overflow : Nat
  pool_timeout : Nat
  pool_recycle : Nat
  deriving Repr, DecidableEq

/-- `create_engine(connection_string, pool_size=10, max_overflow=20,
pool_timeout=300, pool_recycle=7200, ...)`. -/
def createEngine (cs : String) : Engine :=
  { connection_string := cs
    pool_size := 10
    max_overflow := 20
    pool_timeout := 300
    pool_recycle := 7200 }

/-- Python dict assignment `d[k] = v` on a dict modelled as a partial
map. -/
def updateMap {α : Type} (m : String → Option α) (k : String) (v : α) :
    String → Option α :=
  fun n => if n == k then some v else m n

/-- The `ConnectionManager` registry state: the `_engines`, `_sessions`
(modelled by the engine each factory is bound to) and
`_connection_cache` dicts, each keyed by data-source name. -/
structure ConnectionManager where
  engines : String → Option Engine
  sessions : String → Option Engine
  connection_cache : String → Option DataSource

/-- A freshly constructed `ConnectionManager`: all three dicts empty. -/
def emptyManager : ConnectionManager :=
  { engines := fun _ => none
    sessions := fun _ => none
    connection_cache := fun _ => none }

/-- `ConnectionManager.add_data_source`: builds the connection string,
creates the pooled engine, probes it with `SELECT 1`, and only then
stores engine, session factory and cached config under the data-source
name.  The result pairs the exception that propagated (if any, the
probe's driver failure being the connection error) with the registry
state after the call: on failure the state is the unmodified `cm`. -/
def add_data_source (env : ConnEnv) (cm : ConnectionManager) (ds : DataSource) :
    Option PyErr × ConnectionManager :=
  match ds.get_connection_string env with
  | .error e => (some e, cm)
  | .ok cs =>
    let engine := createEngine cs
    if env.connectOk cs then
      (none,
        { engines := updateMap cm.engines ds.name engine
          sessions := updateMap cm.sessions ds.name engine
          connection_cache := updateMap cm.connection_cache ds.name ds })
    else
      (some (.connectionError ("数据源 " ++ ds.name ++ " 连接失败")), cm)

/-- `sql.replace('%', '%%')` at character-list level. -/
def escPercent (l : List Char) : List Char :=
  (l.map fun c => if c == '%' then ['%', '%'] else [c]).flatten

/-- `safe_sql = sql.replace('%', '%%')` in `execute_query`. -/
def pctEscape (s : String) : String :=
  String.mk (escPercent s.data)

/-- `ConnectionManager.execute_query` in the no-bind-parameters case:
resolves the engine (raising when the name is unregistered), escapes
percent signs, and hands the resulting text to `pd.read_sql` under the
timeout executor. -/
def execute_query (env : ConnEnv) (cm : ConnectionManager) (name sql : String) :
    Except PyErr DataFrame :=
  match cm.engines name with
  | none => .error (.valueError ("数据源 " ++ name ++ " 不存在"))
  | some _ => env.readSql (pctEscape sql)

/-! ## Test-mode SQL row limiting (`TaskExecutor.test_task`) -/

/-- Python `s.rstrip(';')`: drop trailing semicolons. -/
def rstripSemis (s : String) : String :=
  String.mk ((s.data.reverse.dropWhile fun c => c == ';').reverse)

/-- The row-limiting step of `test_task` for SQL tasks:
`test_sql = task.sql_content.strip().rstrip(';')`, then append
`" LIMIT 10"` exactly when `'limit' not in test_sql.lower()`. -/
def make_test_sql (sql : String) : String :=
  if containsSub "limit".data (pyLower (rstripSemis (pyStrip sql))).data then
    rstripSemis (pyStrip sql)
  else
    rstripSemis (pyStrip sql) ++ " LIMIT 10"

/-! ## Concrete fixtures for witnesses and counterexamples -/

def dfOne : DataFrame := { cols := ["x"], rows := [["1"]] }

def dfTwo : DataFrame := { cols := ["a"], rows := [["1"], ["2"]] }

def dfThree : DataFrame := { cols := ["b"], rows := [["1"], ["2"], ["3"]] }

def erStub : ExportResults :=
  { file_path := some "/tmp/out.xlsx"
    file_size := 2048
    dingtalk_sent := false
    email_sent := true
    asStr := "results" }

def taskSql : ExportTask :=
  { id := 1
    name := "t1"
    dataSourceName := "ds"
    execution_type := ExecutionType.sql
    sql_content := some "SELECT 1"
    script_path := none
    script_function := none
    cron_expression := some "0 12 * * *"
    timezone := none
    status := TaskStatus.active }

def taskScript : ExportTask :=
  { taskSql with
    id := 2
    name := "t2"
    execution_type := ExecutionType.script
    sql_content := none
    script_path := some "/scripts/job.py"
    script_function := some "run" }

def taskInactive : ExportTask :=
  { taskSql with id := 3, name := "t3", status := TaskStatus.inactive }

def envSql : ExecEnv :=
  { executionId := "e1"
    startTime := 0
    finishTime := 30
    registeredSources := ["ds"]
    queryResult := Except.ok dfOne
    sqlDuration := 5
    scriptLoad := Except.ok ()
    scriptRet := Except.ok PyObj.pyNone
    scriptDuration := 0
    exportSingle := Except.ok erStub
    exportMulti := Except.ok erStub
    notify := Except.ok ()
    formatExc := PyErr.message }

def envScriptStr : ExecEnv :=
  { envSql with scriptRet := Except.ok (PyObj.pyStr "hello") }

def envScriptDict : ExecEnv :=
  { envSql with
    scriptRet := Except.ok (PyObj.pyDict
      [("a", PyObj.dataFrame dfTwo), ("b", PyObj.dataFrame dfThree)])
    scriptDuration := 3 }

def envScriptSingle : ExecEnv :=
  { envSql with scriptRet := Except.ok (PyObj.dataFrame dfThree) }

def envSched : SchedEnv :=
  { cronValid := fun _ => true, crontabOk := fun _ => true, misfire := 1800 }

def jobCronOfTaskSql : JobConfig :=
  { id := "task_1"
    name := "定时任务: t1"
    kind := JobKind.cron
    max_instances := 1
    coalesce := some true
    misfire_grace_time := some 1800 }

def engineTrace : List EngineEvent :=
  [EngineEvent.op (SchedOp.add taskSql),
   EngineEvent.op (SchedOp.execNow taskSql "20250101_120000"),
   EngineEvent.fire "task_1",
   EngineEvent.fire "manual_1_20250101_120000"]

def dsMysql : DataSource :=
  { name := "ds"
    type := "mysql"
    host := "dbhost"
    port := 3306
    database := "mydb"
    username := "u"
    password := "pw"
    charset := "utf8mb4" }

def envConnOk : ConnEnv :=
  { decrypt := fun s => s
    psycopg2Available := true
    connectOk := fun _ => true
    readSql := fun _ => Except.ok dfOne }

def envConnBad : ConnEnv :=
  { envConnOk with connectOk := fun _ => false }

def cmWithDs : ConnectionManager :=
  { emptyManager with
    engines := fun n => if n == "ds" then some (createEngine "cs") else none }

/-! ## Lemmas: shapes of the executor's intermediate results -/

theorem executeSqlTask_ok_log (env : ExecEnv) (task : ExportTask)
    (log : ExecutionLog) (df : DataFrame) (log1 : ExecutionLog)
    (h : executeSqlTask env task log = Except.ok (df, log1)) :
    log1 = { log with duration := some env.sqlDuration } := by
  unfold executeSqlTask at h
  split at h
  · cases h
  · split at h
    · cases h
    · simp only [Except.ok.injEq, Prod.mk.injEq] at h
      exact h.2.symm

theorem executeScriptTask_ok_log (env : ExecEnv) (task : ExportTask)
    (log : ExecutionLog) (res : DataResult) (log1 : ExecutionLog)
    (h : executeScriptTask env task log = Except.ok (res, log1)) :
    log1 = { log with duration := some env.scriptDuration } := by
  unfold executeScriptTask at h
  split at h
  · cases h
  · split at h
    · cases h
    · split at h
      · cases h
      · split at h
        · simp only [Except.ok.injEq, Prod.mk.injEq] at h
          exact h.2.symm
        · split at h
          · simp only [Except.ok.injEq, Prod.mk.injEq] at h
            exact h.2.symm
          · cases h
        · cases h

theorem executeSqlTask_err_log (env : ExecEnv) (task : ExportTask)
    (log : ExecutionLog) (e : PyErr) (logE : ExecutionLog)
    (h : executeSqlTask env task log = Except.error (e, logE)) :
    logE = log := by
  unfold executeSqlTask at h
  split at h
  · simp only [Except.error.injEq, Prod.mk.injEq] at h
    exact h.2.symm
  · split at h
    · simp only [Except.error.injEq, Prod.mk.injEq] at h
      exact h.2.symm
    · cases h

theorem executeScriptTask_err_start (env : ExecEnv) (task : ExportTask)
    (log : ExecutionLog) (e : PyErr) (logE : ExecutionLog)
    (h : executeScriptTask env task log = Except.error (e, logE)) :
    logE.start_time = log.start_time := by
  unfold executeScriptTask at h
  split at h
  · simp only [Except.error.injEq, Prod.mk.injEq] at h
    rw [← h.2]
  · split at h
    · simp only [Except.error.injEq, Prod.mk.injEq] at h
      rw [← h.2]
    · split at h
      · simp only [Except.error.injEq, Prod.mk.injEq] at h
        rw [← h.2]
      · split at h
        · cases h
        · split at h
          · cases h
          · simp only [Except.error.injEq, Prod.mk.injEq] at h
            rw [← h.2]
        · simp only [Except.error.injEq, Prod.mk.injEq] at h
          rw [← h.2]

theorem dispatchTask_ok_start (env : ExecEnv) (task : ExportTask)
    (log0 : ExecutionLog) (res : DataResult) (log1 : ExecutionLog)
    (h : dispatchTask env task log0 = Except.ok (res, log1)) :
    log1.start_time = log0.start_time := by
  unfold dispatchTask at h
  split at h
  · split at h
    · cases h
    next df log1' heq =>
      simp only [Except.ok.injEq, Prod.mk.injEq] at h
      rw [← h.2, executeSqlTask_ok_log env task log0 df log1' heq]
  · rw [executeScriptTask_ok_log env task log0 res log1 h]

theorem dispatchTask_err_start (env : ExecEnv) (task : ExportTask)
    (log0 : ExecutionLog) (e : PyErr) (logE : ExecutionLog)
    (h : dispatchTask env task log0 = Except.error (e, logE)) :
    logE.start_time = log0.start_time := by
  unfold dispatchTask at h
  split at h
  · split at h
    next el heq =>
      simp only [Except.error.injEq] at h
      subst h
      rw [executeSqlTask_err_log env task log0 e logE heq]
    · cases h
  · exact executeScriptTask_err_start env task log0 e logE h

theorem afterDispatch_ok (env : ExecEnv)
    (d : Except (PyErr × ExecutionLog) (DataResult × ExecutionLog))
    (log : ExecutionLog) (h : afterDispatch env d = Except.ok log) :
    ∃ res log1 er, d = Except.ok (res, log1) ∧ exportData env res = Except.ok er ∧
      log.status = ExecutionStatus.success ∧
      log.start_time = log1.start_time ∧
      log.end_time = some env.finishTime ∧
      log.duration = some (env.finishTime - log1.start_time) ∧
      log.rows_affected = some (rowsAffectedOf res) := by
  rcases d with el | ⟨res, log1⟩
  · simp [afterDispatch] at h
  · rcases hexp : exportData env res with e | er
    · simp [afterDispatch, hexp] at h
    · simp only [afterDispatch, hexp] at h
      simp only [Except.ok.injEq] at h
      subst h
      refine ⟨res, log1, er, rfl, hexp, rfl, rfl, rfl, ?_, ?_⟩
      · simp [ExecutionLog.mark_success]
      · simp [ExecutionLog.mark_success]

theorem afterDispatch_err (env : ExecEnv)
    (d : Except (PyErr × ExecutionLog) (DataResult × ExecutionLog))
    (e : PyErr) (logE : ExecutionLog)
    (h : afterDispatch env d = Except.error (e, logE)) :
    d = Except.error (e, logE) ∨ ∃ res, d = Except.ok (res, logE) := by
  rcases d with el | ⟨res, log1⟩
  · left
    simp only [afterDispatch, Except.error.injEq] at h
    rw [h]
  · rcases hexp : exportData env res with e' | er
    · right
      simp only [afterDispatch, hexp, Except.error.injEq, Prod.mk.injEq] at h
      exact ⟨res, by rw [h.2]⟩
    · simp [afterDispatch, hexp] at h

theorem executeTaskBody_ok_shape (env : ExecEnv) (task : ExportTask)
    (log0 log : ExecutionLog)
    (h : executeTaskBody env task log0 = Except.ok log) :
    log.status = ExecutionStatus.success ∧
    log.start_time = log0.start_time ∧
    log.end_time = some env.finishTime ∧
    log.duration = some (env.finishTime - log0.start_time) := by
  unfold executeTaskBody at h
  split at h
  · cases h
  split at h
  · cases h
  obtain ⟨res, log1, er, hd, _, hs, hst, he, hdur, _⟩ := afterDispatch_ok env _ log h
  have h1 := dispatchTask_ok_start env task log0 res log1 hd
  exact ⟨hs, by rw [hst, h1], he, by rw [hdur, h1]⟩

theorem executeTaskBody_err_start (env : ExecEnv) (task : ExportTask)
    (log0 : ExecutionLog) (e : PyErr) (logE : ExecutionLog)
    (h : executeTaskBody env task log0 = Except.error (e, logE)) :
    logE.start_time = log0.start_time := by
  unfold executeTaskBody at h
  split at h
  · simp only [Except.error.injEq, Prod.mk.injEq] at h
    rw [← h.2]
  split at h
  · simp only [Except.error.injEq, Prod.mk.injEq] at h
    rw [← h.2]
  rcases afterDispatch_err env _ e logE h with hd | ⟨res, hd⟩
  · exact dispatchTask_err_start env task log0 e logE hd
  · exact dispatchTask_ok_start env task log0 res logE hd

/-- Shape of every `execute_task` result: terminal status, start time from
the construction clock, end time from the completion clock, duration
end − start. -/
theorem execute_task_shape (env : ExecEnv) (task : ExportTask) (tb : String) :
    ((execute_task env task tb).status = ExecutionStatus.success ∨
      (execute_task env task tb).status = ExecutionStatus.failed) ∧
    (execute_task env task tb).start_time = env.startTime ∧
    (execute_task env task tb).end_time = some env.finishTime ∧
    (execute_task env task tb).duration = some (env.finishTime - env.startTime) := by
  unfold execute_task
  rcases hb : executeTaskBody env task (initLog env task tb) with ⟨e, logE⟩ | log
  · have hst := executeTaskBody_err_start env task _ e logE hb
    have hst0 : logE.start_time = env.startTime := by
      rw [hst]; rfl
    simp [ExecutionLog.mark_failed, hst0]
  · have hsh := executeTaskBody_ok_shape env task _ log hb
    have hst0 : (initLog env task tb).start_time = env.startTime := rfl
    rw [hst0] at hsh
    exact ⟨Or.inl hsh.1, hsh.2.1, hsh.2.2.1, hsh.2.2.2⟩

/-! ## Lemmas: scheduler job-set and engine invariants -/

theorem foldl_inv {α β : Type} (P : α → Prop) (f : α → β → α)
    (hf : ∀ a b, P a → P (f a b)) :
    ∀ (l : List β) (a : α), P a → P (l.foldl f a) := by
  intro l
  induction l with
  | nil => intro a ha; exact ha
  | cons b bs ih => intro a ha; exact ih (f a b) (hf a b ha)

theorem removeIfExists_max (st : SchedulerState) (jobId : String)
    (h : ∀ j ∈ st.jobs, j.max_instances = 1) :
    ∀ j ∈ (removeIfExists st jobId).jobs, j.max_instances = 1 := by
  intro j hj
  unfold removeIfExists at hj
  split at hj
  · exact h j (List.mem_of_mem_filter hj)
  · exact h j hj

theorem add_task_max (env : SchedEnv) (st : SchedulerState) (task : ExportTask)
    (h : ∀ j ∈ st.jobs, j.max_instances = 1) :
    ∀ j ∈ (add_task env st task).2.jobs, j.max_instances = 1 := by
  intro j hj
  unfold add_task at hj
  split at hj
  · exact h j hj
  split at hj
  · exact h j hj
  split at hj
  · simp only [SchedulerState.addJob] at hj
    rcases List.mem_cons.1 hj with rfl | hj
    · rfl
    · exact removeIfExists_max st _ h j hj
  · exact removeIfExists_max st _ h j hj

theorem remove_task_max (st : SchedulerState) (i : Nat)
    (h : ∀ j ∈ st.jobs, j.max_instances = 1) :
    ∀ j ∈ (remove_task st i).2.jobs, j.max_instances = 1 := by
  intro j hj
  unfold remove_task at hj
  split at hj
  · exact h j (List.mem_of_mem_filter hj)
  · exact h j hj

theorem execute_task_now_max (st : SchedulerState) (task : ExportTask) (stamp : String)
    (h : ∀ j ∈ st.jobs, j.max_instances = 1) :
    ∀ j ∈ (execute_task_now st task stamp).2.jobs, j.max_instances = 1 := by
  intro j hj
  unfold execute_task_now at hj
  split at hj
  · exact h j hj
  · simp only [SchedulerState.addJob] at hj
    rcases List.mem_cons.1 hj with rfl | hj
    · rfl
    · exact h j hj

theorem reschedule_all_max (env : SchedEnv) (st : SchedulerState)
    (tasks : List ExportTask)
    (h : ∀ j ∈ st.jobs, j.max_instances = 1) :
    ∀ j ∈ (reschedule_all_tasks env st tasks).jobs, j.max_instances = 1 := by
  unfold reschedule_all_tasks
  refine foldl_inv
    (fun s : SchedulerState => ∀ j ∈ s.jobs, j.max_instances = 1) _ ?_ tasks _ ?_
  · intro s t hs
    split
    · exact add_task_max env s t hs
    · exact hs
  · intro j hj
    exact h j (List.mem_of_mem_filter hj)

theorem applyOp_max (env : SchedEnv) (st : SchedulerState) (o : SchedOp)
    (h : ∀ j ∈ st.jobs, j.max_instances = 1) :
    ∀ j ∈ (applyOp env st o).jobs, j.max_instances = 1 := by
  cases o with
  | add t => exact add_task_max env st t h
  | remove i => exact remove_task_max st i h
  | update t =>
    exact add_task_max env _ t (remove_task_max st t.id h)
  | execNow t s => exact execute_task_now_max st t s h
  | reschedAll ts => exact reschedule_all_max env st ts h
  | cleanup f =>
    intro j hj
    exact h j (List.mem_of_mem_filter hj)

theorem runOps_max (env : SchedEnv) (ops : List SchedOp) :
    ∀ j ∈ (runOps env ops).jobs, j.max_instances = 1 := by
  unfold runOps
  refine foldl_inv
    (fun s : SchedulerState => ∀ j ∈ s.jobs, j.max_instances = 1)
    _ ?_ ops schedInit ?_
  · intro s o hs
    exact applyOp_max env s o hs
  · intro j hj
    cases hj

theorem fireJob_sched (es : EngineState) (jid : String) :
    (fireJob es jid).sched = es.sched := by
  unfold fireJob
  split
  · rfl
  · split
    · rfl
    · rfl

theorem finishJob_sched (es : EngineState) (jid : String) :
    (finishJob es jid).sched = es.sched := rfl

theorem fireJob_count (es : EngineState) (jid : String)
    (h1 : ∀ j ∈ es.sched.jobs, j.max_instances = 1)
    (h2 : ∀ id, es.running.count id ≤ 1) :
    ∀ id, (fireJob es jid).running.count id ≤ 1 := by
  intro id
  unfold fireJob
  split
  · exact h2 id
  next j hg =>
    split
    · exact h2 id
    next hlt =>
      have hmax : j.max_instances = 1 := h1 j (List.mem_of_find?_eq_some hg)
      rw [hmax] at hlt
      have hz : es.running.count jid = 0 := by omega
      by_cases hid : id = jid
      · subst hid
        simp only [List.count_cons_self, hz]
        omega
      · simp only [List.count_cons_of_ne hid]
        exact h2 id

theorem finishJob_count (es : EngineState) (jid : String)
    (h2 : ∀ id, es.running.count id ≤ 1) :
    ∀ id, (finishJob es jid).running.count id ≤ 1 := by
  intro id
  calc (es.running.erase jid).count id ≤ es.running.count id :=
        (List.erase_sublist jid es.running).count_le id
    _ ≤ 1 := h2 id

theorem applyEvent_inv (env : SchedEnv) (es : EngineState) (ev : EngineEvent)
    (h1 : ∀ j ∈ es.sched.jobs, j.max_instances = 1)
    (h2 : ∀ id, es.running.count id ≤ 1) :
    (∀ j ∈ (applyEvent env es ev).sched.jobs, j.max_instances = 1) ∧
    (∀ id, (applyEvent env es ev).running.count id ≤ 1) := by
  cases ev with
  | op o =>
    refine ⟨?_, ?_⟩
    · intro j hj
      exact applyOp_max env es.sched o h1 j hj
    · intro id
      exact h2 id
  | fire jid =>
    refine ⟨?_, ?_⟩
    · intro j hj
      rw [show (applyEvent env es (EngineEvent.fire jid)) = fireJob es jid from rfl,
        fireJob_sched] at hj
      exact h1 j hj
    · intro id
      exact fireJob_count es jid h1 h2 id
  | finish jid =>
    refine ⟨?_, ?_⟩
    · intro j hj
      exact h1 j hj
    · intro id
      exact finishJob_count es jid h2 id

theorem runEngine_inv (env : SchedEnv) (events : List EngineEvent) :
    (∀ j ∈ (runEngine env events).sched.jobs, j.max_instances = 1) ∧
    (∀ id, (runEngine env events).running.count id ≤ 1) := by
  unfold runEngine
  refine foldl_inv
    (fun es : EngineState => (∀ j ∈ es.sched.jobs, j.max_instances = 1) ∧
      (∀ id, es.running.count id ≤ 1))
    _ ?_ events engineInit ?_
  · intro es ev hes
    exact applyEvent_inv env es ev hes.1 hes.2
  · refine ⟨?_, ?_⟩
    · intro j hj
      cases hj
    · intro id
      simp [engineInit]

/-! ## Lemmas: substring search and percent escaping -/

theorem startsWithL_iff (n : List Char) :
    ∀ h : List Char, startsWithL n h = true ↔ ∃ r, h = n ++ r := by
  induction n with
  | nil =>
    intro h
    simp only [startsWithL, List.nil_append]
    exact ⟨fun _ => ⟨h, rfl⟩, fun _ => trivial⟩
  | cons a as ih =>
    intro h
    cases h with
    | nil =>
      simp only [startsWithL]
      constructor
      · intro hf
        cases hf
      · rintro ⟨r, hr⟩
        cases hr
    | cons b bs =>
      simp only [startsWithL, Bool.and_eq_true, beq_iff_eq, ih bs]
      constructor
      · rintro ⟨rfl, r, rfl⟩
        exact ⟨r, rfl⟩
      · rintro ⟨r, hr⟩
        rw [List.cons_append] at hr
        cases hr
        exact ⟨rfl, r, rfl⟩

theorem containsSub_iff (n : List Char) :
    ∀ h : List Char, containsSub n h = true ↔ ∃ l r, h = l ++ n ++ r := by
  intro h
  induction h with
  | nil =>
    simp only [containsSub, startsWithL_iff]
    constructor
    · rintro ⟨r, hr⟩
      exact ⟨[], r, by simpa using hr⟩
    · rintro ⟨l, r, hr⟩
      obtain ⟨hl, hn, hrr⟩ : l = [] ∧ n = [] ∧ r = [] := by simpa using hr.symm
      exact ⟨[], by simp [hn]⟩
  | cons b bs ih =>
    simp only [containsSub, Bool.or_eq_true, startsWithL_iff, ih]
    constructor
    · rintro (⟨r, hr⟩ | ⟨l, r, hr⟩)
      · exact ⟨[], r, by simpa using hr⟩
      · exact ⟨b :: l, r, by simp [hr]⟩
    · rintro ⟨l, r, hr⟩
      cases l with
      | nil =>
        left
        exact ⟨r, by simpa using hr⟩
      | cons c l' =>
        right
        rw [List.cons_append, List.cons_append] at hr
        cases hr
        exact ⟨l', r, rfl⟩

theorem escPercent_nil : escPercent [] = [] := rfl

theorem escPercent_cons (c : Char) (t : List Char) :
    escPercent (c :: t) =
      (if c == '%' then ['%', '%'] else [c]) ++ escPercent t := by
  simp [escPercent]

theorem escPercent_length (l : List Char) :
    (escPercent l).length = l.length + l.count '%' := by
  induction l with
  | nil => rfl
  | cons c t ih =>
    by_cases hc : c = '%'
    · subst hc
      have hred : escPercent ('%' :: t) = '%' :: '%' :: escPercent t := by
        simp [escPercent_cons]
      rw [hred]
      simp only [List.length_cons, ih, List.count_cons_self]
      omega
    · have hb : (c == '%') = false := beq_eq_false_iff_ne.2 hc
      have hred : escPercent (c :: t) = c :: escPercent t := by
        simp [escPercent_cons, hb]
      have hcnt : List.count '%' (c :: t) = List.count '%' t :=
        List.count_cons_of_ne (fun he => hc he.symm) t
      rw [hred]
      simp only [List.length_cons, ih, hcnt]
      omega

theorem escPercent_eq_iff (l : List Char) :
    escPercent l = l ↔ '%' ∉ l := by
  constructor
  · intro he
    have hlen := escPercent_length l
    rw [he] at hlen
    have hz : l.count '%' = 0 := by omega
    exact List.count_eq_zero.1 hz
  · intro hm
    induction l with
    | nil => rfl
    | cons c t ih =>
      have hc : c ≠ '%' := fun he => hm (he ▸ List.mem_cons_self c t)
      have hb : (c == '%') = false := beq_eq_false_iff_ne.2 hc
      have hred : escPercent (c :: t) = c :: escPercent t := by
        simp [escPercent_cons, hb]
      rw [hred, ih (fun hmem => hm (List.mem_cons_of_mem c hmem))]

theorem pctEscape_eq_iff (s : String) :
    pctEscape s = s ↔ '%' ∉ s.data := by
  rw [← escPercent_eq_iff s.data]
  constructor
  · intro h
    simpa [pctEscape] using congrArg String.data h
  · intro h
    apply String.ext
    simpa [pctEscape] using h

/-! ## Claim theorems -/

/-- C1: for every task, environment and trigger origin, `execute_task`
returns an `ExecutionLog` and never raises past its boundary (in the
embedding it is a total function into `ExecutionLog`, not `Except`); the
returned log is terminal — `success` or `failed`, never `running` — with
`end_time` set. -/
theorem execute_task_total_and_terminal (env : ExecEnv) (task : ExportTask)
    (tb : String) :
    ((execute_task env task tb).status = ExecutionStatus.success ∨
      (execute_task env task tb).status = ExecutionStatus.failed) ∧
    (execute_task env task tb).status ≠ ExecutionStatus.running ∧
    (execute_task env task tb).end_time.isSome = true := by
  obtain ⟨hs, _, he, _⟩ := execute_task_shape env task tb
  refine ⟨hs, ?_, by rw [he]; rfl⟩
  rcases hs with h | h <;> simp [h]

/-- C4: every `mark_success` / `mark_failed` / `mark_cancelled` transition
sets `end_time` (the explicit argument, else now) and recomputes
`duration` as end − start; and the log returned by every `execute_task`
call satisfies the same equations with its construction and completion
clocks. -/
theorem terminal_marks_set_duration_and_end :
    (∀ (log : ExecutionLog) (now : Int) (et : Option Int) (ra : Option Nat)
        (ofp : Option String) (fs : Option Nat),
      (log.mark_success now et ra ofp fs).end_time = some (et.getD now) ∧
      (log.mark_success now et ra ofp fs).duration =
        some (et.getD now - log.start_time)) ∧
    (∀ (log : ExecutionLog) (now : Int) (msg : String) (tbk : Option String)
        (et : Option Int),
      (log.mark_failed now msg tbk et).end_time = some (et.getD now) ∧
      (log.mark_failed now msg tbk et).duration =
        some (et.getD now - log.start_time)) ∧
    (∀ (log : ExecutionLog) (now : Int) (et : Option Int),
      (log.mark_cancelled now et).end_time = some (et.getD now) ∧
      (log.mark_cancelled now et).duration =
        some (et.getD now - log.start_time)) ∧
    (∀ (env : ExecEnv) (task : ExportTask) (tb : String),
      (execute_task env task tb).end_time = some env.finishTime ∧
      (execute_task env task tb).duration =
        some (env.finishTime - env.startTime)) := by
  refine ⟨?_, ?_, ?_, ?_⟩
  · intro log now et ra ofp fs
    exact ⟨rfl, rfl⟩
  · intro log now msg tbk et
    exact ⟨rfl, rfl⟩
  · intro log now et
    exact ⟨rfl, rfl⟩
  · intro env task tb
    obtain ⟨_, _, he, hd⟩ := execute_task_shape env task tb
    exact ⟨he, hd⟩

/-- C5: when the script function returns a value that is neither a
DataFrame nor a dict of DataFrames (e.g. a plain string), `execute_task`
returns a `failed` log whose error message is the contract-violation
message, without raising. -/
theorem script_contract_violation_fails (env : ExecEnv) (task : ExportTask)
    (tb : String)
    (hact : task.is_active = true)
    (hds : env.registeredSources.contains task.dataSourceName = true)
    (hty : task.execution_type = ExecutionType.script)
    (hsp : strTruthy task.script_path = true)
    (hsf : strTruthy task.script_function = true)
    (hload : env.scriptLoad = Except.ok ())
    (r : PyObj) (hret : env.scriptRet = Except.ok r)
    (hnot : r.isTabular = false) :
    (execute_task env task tb).status = ExecutionStatus.failed ∧
    (execute_task env task tb).error_message = some scriptContractMsg := by
  have hscript : executeScriptTask env task (initLog env task tb) =
      Except.error (PyErr.valueError scriptContractMsg,
        { initLog env task tb with duration := some env.scriptDuration }) := by
    cases r with
    | dataFrame df => simp [PyObj.isTabular] at hnot
    | pyDict entries =>
      have hall : entries.all (fun e => e.2.isDataFrame) = false := by
        simpa [PyObj.isTabular] using hnot
      simp [executeScriptTask, hsp, hsf, hload, hret, hall]
    | pyStr s => simp [executeScriptTask, hsp, hsf, hload, hret]
    | pyNone => simp [executeScriptTask, hsp, hsf, hload, hret]
    | pyInt n => simp [executeScriptTask, hsp, hsf, hload, hret]
  have hds' : task.dataSourceName ∈ env.registeredSources := by simpa using hds
  have hbody : executeTaskBody env task (initLog env task tb) =
      Except.error (PyErr.valueError scriptContractMsg,
        { initLog env task tb with duration := some env.scriptDuration }) := by
    simp [executeTaskBody, dispatchTask, afterDispatch, hact, hds', hty, hscript]
  unfold execute_task
  rw [hbody]
  exact ⟨rfl, rfl⟩

/-- C5 witness: a script task whose function returns the plain string
"hello" yields a failed log carrying the contract-violation message. -/
theorem script_contract_violation_fails_witness :
    (execute_task envScriptStr taskScript "manual").status =
      ExecutionStatus.failed ∧
    (execute_task envScriptStr taskScript "manual").error_message =
      some scriptContractMsg :=
  script_contract_violation_fails envScriptStr taskScript "manual" rfl rfl rfl
    rfl rfl rfl (PyObj.pyStr "hello") rfl rfl

/-- C7 counterexample: a successful SQL execution whose query step took 5
seconds inside a 30-second overall run returns a log whose `duration` is
not the query step's duration — `mark_success` overwrote it with
end − start. -/
theorem sql_step_duration_counterexample :
    (execute_task envSql taskSql "manual").status = ExecutionStatus.success ∧
    envSql.sqlDuration = 5 ∧
    (execute_task envSql taskSql "manual").duration ≠ some envSql.sqlDuration := by
  refine ⟨rfl, rfl, ?_⟩
  intro hc
  have h30 : (execute_task envSql taskSql "manual").duration = some 30 := rfl
  have h5 : envSql.sqlDuration = 5 := rfl
  rw [h30, h5] at hc
  exact absurd (Option.some.inj hc) (by decide)

/-- C7 amended: `_execute_sql_task` measures the SQL step's wall-clock
duration and stores it into the log's `duration` field, but on terminal
transition `execute_task` recomputes `duration` as end − start, so the
returned log carries the overall execution duration, not the query
step's. -/
theorem sql_step_duration_stored_then_overwritten :
    (∀ (env : ExecEnv) (task : ExportTask) (log : ExecutionLog)
        (df : DataFrame) (log1 : ExecutionLog),
      executeSqlTask env task log = Except.ok (df, log1) →
      log1.duration = some env.sqlDuration) ∧
    (∀ (env : ExecEnv) (task : ExportTask) (tb : String),
      (execute_task env task tb).duration =
        some (env.finishTime - env.startTime)) := by
  constructor
  · intro env task log df log1 h
    rw [executeSqlTask_ok_log env task log df log1 h]
  · intro env task tb
    exact (execute_task_shape env task tb).2.2.2

/-- C7 amended witness: in the concrete 30-second run the SQL step
lemma applies with its 5-second step duration. -/
theorem sql_step_duration_stored_then_overwritten_witness :
    ({ initLog envSql taskSql "manual" with
        duration := some envSql.sqlDuration } : ExecutionLog).duration =
      some envSql.sqlDuration :=
  sql_step_duration_stored_then_overwritten.1 envSql taskSql
    (initLog envSql taskSql "manual") dfOne _ rfl

/-- C10: on a successful script execution, `rows_affected` in the
returned log is `0` whenever the data step produced a dict of named
DataFrames, regardless of their row counts, and equals the row count
exactly when the result is a single DataFrame. -/
theorem rows_affected_single_vs_multi (env : ExecEnv) (task : ExportTask)
    (tb : String)
    (hact : task.is_active = true)
    (hds : env.registeredSources.contains task.dataSourceName = true)
    (hty : task.execution_type = ExecutionType.script)
    (hsp : strTruthy task.script_path = true)
    (hsf : strTruthy task.script_function = true)
    (hload : env.scriptLoad = Except.ok ()) :
    (∀ entries er, env.scriptRet = Except.ok (PyObj.pyDict entries) →
      entries.all (fun e => e.2.isDataFrame) = true →
      env.exportMulti = Except.ok er →
      (execute_task env task tb).rows_affected = some 0) ∧
    (∀ df er, env.scriptRet = Except.ok (PyObj.dataFrame df) →
      env.exportSingle = Except.ok er →
      (execute_task env task tb).rows_affected = some df.rows.length) := by
  have hds' : task.dataSourceName ∈ env.registeredSources := by simpa using hds
  constructor
  · intro entries er hret hall hexp
    have hscript : executeScriptTask env task (initLog env task tb) =
        Except.ok (DataResult.multi (dictFrames entries),
          { initLog env task tb with duration := some env.scriptDuration }) := by
      simp [executeScriptTask, hsp, hsf, hload, hret, hall]
    simp [execute_task, executeTaskBody, dispatchTask, afterDispatch, hact, hds',
      hty, hscript, exportData, hexp, ExecutionLog.mark_success, rowsAffectedOf]
  · intro df er hret hexp
    have hscript : executeScriptTask env task (initLog env task tb) =
        Except.ok (DataResult.single df,
          { initLog env task tb with duration := some env.scriptDuration }) := by
      simp [executeScriptTask, hsp, hsf, hload, hret]
    simp [execute_task, executeTaskBody, dispatchTask, afterDispatch, hact, hds',
      hty, hscript, exportData, hexp, ExecutionLog.mark_success, rowsAffectedOf]

/-- C10 witness: a script returning two DataFrames of 2 and 3 rows as a
dict yields `rows_affected = 0`. -/
theorem rows_affected_single_vs_multi_witness :
    (execute_task envScriptDict taskScript "manual").rows_affected = some 0 :=
  (rows_affected_single_vs_multi envScriptDict taskScript "manual" rfl rfl rfl
      rfl rfl rfl).1
    [("a", PyObj.dataFrame dfTwo), ("b", PyObj.dataFrame dfThree)] erStub
    rfl rfl rfl

/-- C2 counterexample: after adding the cron job of task 1 and submitting
a manual one-shot for the same task, both jobs can fire while the other
is running — the engine's `max_instances = 1` gate is per job id, and
the manual job has a different, timestamped id — leaving two executions
of task 1 in the running state at once. -/
theorem concurrent_same_task_counterexample :
    runningCountOfTask (runEngine envSched engineTrace) 1 = 2 := by decide

/-- C2 amended: every job the scheduler registers (cron and manual
one-shot) is configured with `max_instances = 1`, and the engine gate
therefore never runs two executions of the same job id concurrently;
executions of the same task id under different job ids (a cron fire and
a timestamped manual fire) are not mutually excluded. -/
theorem per_job_max_instances_exclusion :
    (∀ (env : SchedEnv) (ops : List SchedOp) (j : JobConfig),
      j ∈ (runOps env ops).jobs → j.max_instances = 1) ∧
    (∀ (env : SchedEnv) (events : List EngineEvent) (jobId : String),
      (runEngine env events).running.count jobId ≤ 1) := by
  constructor
  · intro env ops j hj
    exact runOps_max env ops j hj
  · intro env events jobId
    exact (runEngine_inv env events).2 jobId

/-- C2 amended witness: the cron job registered for the concrete task has
`max_instances = 1`. -/
theorem per_job_max_instances_exclusion_witness :
    jobCronOfTaskSql.max_instances = 1 :=
  per_job_max_instances_exclusion.1 envSched [SchedOp.add taskSql]
    jobCronOfTaskSql (by decide)

/-- C3: `add_task` returns `false` and leaves the job set untouched for
every task that is not active, lacks a cron expression, or whose cron
expression fails the independent croniter validation. -/
theorem add_task_rejects_ineligible (env : SchedEnv) (st : SchedulerState)
    (task : ExportTask)
    (h : task.is_active = false ∨ strTruthy task.cron_expression = false ∨
      env.cronValid (task.cron_expression.getD "") = false) :
    add_task env st task = (false, st) := by
  rcases h with h | h | h
  · simp [add_task, h]
  · simp [add_task, h]
  · unfold add_task
    split
    · rfl
    · simp [h]

/-- C3 witness: an inactive task is rejected and the empty job set is
unchanged. -/
theorem add_task_rejects_ineligible_witness :
    add_task envSched schedInit taskInactive = (false, schedInit) :=
  add_task_rejects_ineligible envSched schedInit taskInactive (Or.inl rfl)

/-- C6: `add_data_source` probes connectivity before storing anything: a
connection-string failure or a failed probe propagates the error with
the registry state unchanged (the probe failure surfacing as the
connection error), while a successful probe stores exactly the engine,
session factory and cached config under the data-source name, leaving
every other name untouched. -/
theorem add_data_source_probe_store (env : ConnEnv) (cm : ConnectionManager)
    (ds : DataSource) :
    (∀ e, ds.get_connection_string env = Except.error e →
      add_data_source env cm ds = (some e, cm)) ∧
    (∀ cs, ds.get_connection_string env = Except.ok cs →
      env.connectOk cs = false →
      add_data_source env cm ds =
        (some (PyErr.connectionError ("数据源 " ++ ds.name ++ " 连接失败")), cm)) ∧
    (∀ cs, ds.get_connection_string env = Except.ok cs →
      env.connectOk cs = true →
      (add_data_source env cm ds).1 = none ∧
      (add_data_source env cm ds).2.engines ds.name = some (createEngine cs) ∧
      (add_data_source env cm ds).2.sessions ds.name = some (createEngine cs) ∧
      (add_data_source env cm ds).2.connection_cache ds.name = some ds ∧
      (∀ k, k ≠ ds.name →
        (add_data_source env cm ds).2.engines k = cm.engines k ∧
        (add_data_source env cm ds).2.sessions k = cm.sessions k ∧
        (add_data_source env cm ds).2.connection_cache k = cm.connection_cache k)) := by
  refine ⟨?_, ?_, ?_⟩
  · intro e he
    simp [add_data_source, he]
  · intro cs hcs hbad
    simp [add_data_source, hcs, hbad]
  · intro cs hcs hok
    refine ⟨?_, ?_, ?_, ?_, ?_⟩
    · simp [add_data_source, hcs, hok]
    · simp [add_data_source, hcs, hok, updateMap]
    · simp [add_data_source, hcs, hok, updateMap]
    · simp [add_data_source, hcs, hok, updateMap]
    · intro k hk
      refine ⟨?_, ?_, ?_⟩ <;>
        simp [add_data_source, hcs, hok, updateMap, hk]

/-- C6 witness: with a failing probe, registering a MySQL data source
into the empty registry raises the connection error and leaves the
registry empty. -/
theorem add_data_source_probe_store_witness :
    add_data_source envConnBad emptyManager dsMysql =
      (some (PyErr.connectionError ("数据源 " ++ dsMysql.name ++ " 连接失败")),
        emptyManager) :=
  (add_data_source_probe_store envConnBad emptyManager dsMysql).2.1
    "mysql+pymysql://u:pw@dbhost:3306/mydb?charset=utf8mb4" rfl rfl

/-- C8: in `test_task` on an SQL task, the text obtained by stripping
surrounding whitespace and trailing semicolons is returned unchanged
exactly when the lower-cased text contains "limit" as a substring, and
gets " LIMIT 10" appended exactly when it does not — SQL already
containing the keyword is never double-limited. -/
theorem test_sql_limit_append_iff (sql : String) :
    ((∃ l r, (pyLower (rstripSemis (pyStrip sql))).data = l ++ "limit".data ++ r) →
      make_test_sql sql = rstripSemis (pyStrip sql)) ∧
    ((¬∃ l r, (pyLower (rstripSemis (pyStrip sql))).data = l ++ "limit".data ++ r) →
      make_test_sql sql = rstripSemis (pyStrip sql) ++ " LIMIT 10") := by
  constructor
  · intro hex
    unfold make_test_sql
    rw [if_pos
      ((containsSub_iff "limit".data (pyLower (rstripSemis (pyStrip sql))).data).2 hex)]
  · intro hnex
    unfold make_test_sql
    rw [if_neg (fun hc => hnex
      ((containsSub_iff "limit".data (pyLower (rstripSemis (pyStrip sql))).data).1 hc))]

/-- C8 witness: a query without the keyword gets the limit appended. -/
theorem test_sql_limit_append_iff_witness :
    make_test_sql "SELECT id FROM users;" =
      rstripSemis (pyStrip "SELECT id FROM users;") ++ " LIMIT 10" := by
  apply (test_sql_limit_append_iff "SELECT id FROM users;").2
  intro hex
  have hc := (containsSub_iff "limit".data
    (pyLower (rstripSemis (pyStrip "SELECT id FROM users;"))).data).2 hex
  have hf : containsSub "limit".data
      (pyLower (rstripSemis (pyStrip "SELECT id FROM users;"))).data = false := by
    decide
  rw [hf] at hc
  cases hc

/-- C9: for every query without bind parameters against a registered
engine, the text handed to the driver is the input with every percent
sign doubled, and that text equals the input exactly when the input
contains no percent sign. -/
theorem execute_query_percent_escaping (env : ConnEnv) (cm : ConnectionManager)
    (name sql : String) (h : (cm.engines name).isSome = true) :
    execute_query env cm name sql = env.readSql (pctEscape sql) ∧
    (pctEscape sql = sql ↔ '%' ∉ sql.data) := by
  constructor
  · unfold execute_query
    rcases he : cm.engines name with _ | eng
    · rw [he] at h
      cases h
    · rfl
  · exact pctEscape_eq_iff sql

/-- C9 witness: a registered engine and the query `a%b`, whose submitted
form doubles the percent. -/
theorem execute_query_percent_escaping_witness :
    execute_query envConnOk cmWithDs "ds" "a%b" =
      envConnOk.readSql (pctEscape "a%b") ∧
    (pctEscape "a%b" = "a%b" ↔ '%' ∉ ("a%b").data) :=
  execute_query_percent_escaping envConnOk cmWithDs "ds" "a%b" rfl

end DataAutoExport
